import Mathlib

/-!
Shallow embedding of the `wikipy` repository's core logic, translated from
`src/provider/wikipedia.py` and `src/db/handlers.py` / `src/db/models.py`.

HTTP transport is abstracted: each provider operation receives the upstream
response it would observe for its single request and returns the list of
requests it issued, the Python-level result (a value or a raised exception),
the log lines emitted, and the final provider state.  Python's dynamic return
values are modelled by the tagged union `PyValue`; raised exceptions by
`PyError`.
-/

/-- Log levels used by the `logging` module calls appearing in the source. -/
inductive LogLevel where
  | debug
  | info
  | warning
  | error
deriving DecidableEq, Repr

/-- A single emitted log line: level and formatted message. -/
abbrev LogEntry := LogLevel × String

/-- The process environment, as read by `os.getenv`: absent variables are `none`. -/
abbrev Env := String → Option String

/-- Python truthiness of `os.getenv` results: `None` and `""` are falsy. -/
def truthy : Option String → Bool
  | Option.none => false
  | some s => s != ""

/-- An `httpx.Response` as observed by the provider: status code, reason
phrase, headers and raw body text. -/
structure HttpResponse where
  status_code : Nat
  reason_phrase : String
  headers : List (String × String) := []
  body : String := ""
deriving DecidableEq, Repr

/-- `httpx.Headers.get(name)`: first header with the given name, else `None`. -/
def HttpResponse.header (r : HttpResponse) (name : String) : Option String :=
  (r.headers.find? (fun p => p.1 == name)).map (fun p => p.2)

/-- `httpx.Response.is_error`: true exactly for 4xx and 5xx status codes. -/
def HttpResponse.is_error (r : HttpResponse) : Bool :=
  400 ≤ r.status_code && r.status_code < 600

/-- `httpx.HTTPStatusError` as raised by `Response.raise_for_status()`;
it carries the offending response's status code and reason phrase. -/
structure HTTPStatusError where
  status_code : Nat
  reason_phrase : String
deriving DecidableEq, Repr

/-- Exceptions raised by the code under consideration: `ValueError` from
`get_credentials` and `HTTPStatusError` from `raise_for_status`. -/
inductive PyError where
  | valueError (msg : String)
  | httpStatusError (e : HTTPStatusError)
deriving DecidableEq, Repr

/-- `AccessTokenResponse` pydantic model (`src/provider/wikipedia.py`). -/
structure AccessTokenResponse where
  access_token : String
  token_type : String
  expires_in : Int
  refresh_token : String := ""
deriving DecidableEq, Repr

/-- `AccessTokenResponse.expires_at`: `int(time.time()) + self.expires_in`,
with the current clock reading passed in explicitly. -/
def AccessTokenResponse.expires_at (a : AccessTokenResponse) (now : Int) : Int :=
  now + a.expires_in

/-- Dynamic Python values returned by the operations under consideration. -/
inductive PyValue where
  | none
  | int (n : Int)
  | str (s : String)
  | response (r : HttpResponse)
  | accessTokenResponse (a : AccessTokenResponse)
deriving DecidableEq, Repr

/-- Whether a dynamic value is a decoded `AccessTokenResponse` instance. -/
def PyValue.isAccessTokenResponse : PyValue → Bool
  | PyValue.accessTokenResponse _ => true
  | _ => false

/-- `ClientCredentials` named tuple. -/
structure ClientCredentials where
  client_id : String
  client_secret : String
deriving DecidableEq, Repr

/-- `WikipediaSearchParams` pydantic model: search terms and result limit. -/
structure WikipediaSearchParams where
  search_terms : List String := []
  limit : Int := 5
deriving DecidableEq, Repr

/-- `WikipediaSearchParams.as_dict`: serialized query parameters
`{"q": "+".join(search_terms), "limit": limit}`. -/
def WikipediaSearchParams.as_dict (p : WikipediaSearchParams) : List (String × PyValue) :=
  [("q", PyValue.str (String.intercalate "+" p.search_terms)),
   ("limit", PyValue.int p.limit)]

namespace WikipediaEndpoints

/-- `WikipediaEndpoints.SEARCH_PAGES` string-enum member. -/
def SEARCH_PAGES : String := "search/page"

/-- `WikipediaEndpoints.SEARCH_TITLES` string-enum member. -/
def SEARCH_TITLES : String := "search/title"

end WikipediaEndpoints

/-- An outgoing HTTP request as assembled by a provider operation. -/
structure HttpRequest where
  method : String
  base_url : String
  url : String
  params : List (String × PyValue) := []
  headers : List (String × String) := []
  form : List (String × String) := []
deriving DecidableEq, Repr

/-- The `Wikipedia` provider's instance state: its URL fields and the
optional bearer token. -/
structure Wikipedia where
  auth_url : String := "https://meta.wikimedia.org/w/rest.php/oauth2/access_token"
  api_url : String := "https://api.wikimedia.org/core/v1/wikipedia/en/"
  random_url : String := "https://en.wikipedia.org/wiki/Special:Random"
  token : Option String := Option.none
deriving DecidableEq, Repr

/-- A provider instance with the class defaults (as `Wikipedia()` builds). -/
def Wikipedia.init : Wikipedia := {}

/-- Observable outcome of one provider operation: final provider state,
requests actually issued, returned value or raised exception, log lines,
and bodies pretty-printed to the console. -/
structure OpResult where
  final : Wikipedia
  requests : List HttpRequest
  result : Except PyError PyValue
  logs : List LogEntry
  console : List String := []

/-- `Wikipedia.debug` property: `os.getenv("DEBUG", False) in [True, "True"]`,
true exactly when the variable is set to the string `"True"`. -/
def Wikipedia.debug (env : Env) : Bool :=
  env "DEBUG" == some "True"

/-- `Wikipedia.get_credentials`: reads `WM_CLIENT_ID` / `WM_CLIENT_SECRET`
from the environment and raises `ValueError` when either is falsy. -/
def Wikipedia.get_credentials (env : Env) : Except PyError ClientCredentials :=
  let client_id := env "WM_CLIENT_ID"
  let client_secret := env "WM_CLIENT_SECRET"
  if !truthy client_id || !truthy client_secret then
    Except.error (PyError.valueError "Client credentials not found")
  else
    Except.ok ⟨client_id.getD "", client_secret.getD ""⟩

/-- The error log line `f"Error: {resp.status_code} - {resp.reason_phrase}"`. -/
def errorLogLine (resp : HttpResponse) : LogEntry :=
  (LogLevel.error, "Error: " ++ toString resp.status_code ++ " - " ++ resp.reason_phrase)

/-- `Wikipedia.get_access_token`: POSTs client credentials to the OAuth2
token endpoint; on 4xx/5xx logs the error and raises via
`raise_for_status()`; otherwise returns the raw `httpx.Response`. -/
def Wikipedia.get_access_token (w : Wikipedia) (env : Env) (upstream : HttpResponse) :
    OpResult :=
  let dbg : LogEntry := (LogLevel.debug, "Authenticating client credentials")
  match Wikipedia.get_credentials env with
  | Except.error e =>
      { final := w, requests := [], result := Except.error e, logs := [dbg] }
  | Except.ok creds =>
      let req : HttpRequest :=
        { method := "POST", base_url := w.auth_url, url := w.auth_url,
          form := [("grant_type", "client_credentials"),
                   ("client_id", creds.client_id),
                   ("client_secret", creds.client_secret)] }
      let resp := upstream
      if resp.is_error then
        { final := w, requests := [req],
          result := Except.error (PyError.httpStatusError
            ⟨resp.status_code, resp.reason_phrase⟩),
          logs := [dbg, errorLogLine resp] }
      else
        { final := w, requests := [req],
          result := Except.ok (PyValue.response resp), logs := [dbg] }

/-- Header assembly shared by the two search operations:
`if not self.token: warn else: Authorization: Bearer <token>`. -/
def Wikipedia.searchHeaders (w : Wikipedia) : List (String × String) :=
  if truthy w.token then [("Authorization", "Bearer " ++ w.token.getD "")] else []

/-- The warning emitted when `not self.token` holds. -/
def Wikipedia.searchWarnLogs (w : Wikipedia) : List LogEntry :=
  if truthy w.token then [] else [(LogLevel.warning, "No access token found.")]

/-- `Wikipedia.search_titles`: GET `search/title` with the serialized params
and the bearer header when a truthy token is held. -/
def Wikipedia.search_titles (w : Wikipedia) (env : Env) (terms : List String)
    (limit : Int) (upstream : HttpResponse) : OpResult :=
  let params : WikipediaSearchParams := { search_terms := terms, limit := limit }
  let headers := w.searchHeaders
  let warnLogs := w.searchWarnLogs
  let req : HttpRequest :=
    { method := "GET", base_url := w.api_url, url := WikipediaEndpoints.SEARCH_TITLES,
      params := params.as_dict, headers := headers }
  let dbg : LogEntry := (LogLevel.debug, "Searching Wikipedia")
  let resp := upstream
  if resp.is_error then
    { final := w, requests := [req],
      result := Except.error (PyError.httpStatusError
        ⟨resp.status_code, resp.reason_phrase⟩),
      logs := warnLogs ++ [dbg, errorLogLine resp] }
  else
    { final := w, requests := [req],
      result := Except.ok (PyValue.response resp),
      logs := warnLogs ++ [dbg],
      console := if Wikipedia.debug env then [resp.body] else [] }

/-- `Wikipedia.search_articles`: GET `search/page`; identical assembly to
`search_titles` apart from the endpoint and its debug log message. -/
def Wikipedia.search_articles (w : Wikipedia) (env : Env) (terms : List String)
    (limit : Int) (upstream : HttpResponse) : OpResult :=
  let params : WikipediaSearchParams := { search_terms := terms, limit := limit }
  let headers := w.searchHeaders
  let warnLogs := w.searchWarnLogs
  let req : HttpRequest :=
    { method := "GET", base_url := w.api_url, url := WikipediaEndpoints.SEARCH_PAGES,
      params := params.as_dict, headers := headers }
  let dbg : LogEntry :=
    (LogLevel.debug, "Searching Wikipedia for: " ++ String.intercalate "," terms)
  let resp := upstream
  if resp.is_error then
    { final := w, requests := [req],
      result := Except.error (PyError.httpStatusError
        ⟨resp.status_code, resp.reason_phrase⟩),
      logs := warnLogs ++ [dbg, errorLogLine resp] }
  else
    { final := w, requests := [req],
      result := Except.ok (PyValue.response resp),
      logs := warnLogs ++ [dbg],
      console := if Wikipedia.debug env then [resp.body] else [] }

/-- Python `f"{x}"` rendering of an optional string: `None` prints as "None". -/
def pyShowOptStr : Option String → String
  | Option.none => "None"
  | some s => s

/-- `Wikipedia.get_random_article`: GET against the fixed random-article URL;
on 4xx/5xx logs and raises, otherwise logs the `location` header and returns
the raw response (httpx does not follow the redirect). -/
def Wikipedia.get_random_article (w : Wikipedia) (upstream : HttpResponse) : OpResult :=
  let dbg : LogEntry := (LogLevel.debug, "Getting a random page")
  let req : HttpRequest := { method := "GET", base_url := w.random_url, url := "" }
  let resp := upstream
  if resp.is_error then
    { final := w, requests := [req],
      result := Except.error (PyError.httpStatusError
        ⟨resp.status_code, resp.reason_phrase⟩),
      logs := [dbg, errorLogLine resp] }
  else
    { final := w, requests := [req],
      result := Except.ok (PyValue.response resp),
      logs := [dbg,
        (LogLevel.debug, "Random page: " ++ pyShowOptStr (resp.header "location"))] }

/-!  Token store (`src/db/models.py`, `src/db/handlers.py`). -/

/-- The persisted `Token` row: auto-assigned id plus the credential fields. -/
structure Token where
  id : Option Nat := Option.none
  access_token : String
  refresh_token : String
  expires_at : Int
deriving DecidableEq, Repr

/-- The credential table's state: stored rows and the next id the engine
will auto-assign. -/
structure Store where
  rows : List Token := []
  next_id : Nat := 1
deriving DecidableEq, Repr

/-- Outcome of one database handler call: final store state, the Python
return value, and the log lines emitted. -/
structure DbResult (α : Type) where
  store : Store
  value : α
  logs : List LogEntry
deriving DecidableEq, Repr

/-- Python `f"{token.id}"` for the optional id column. -/
def pyShowOptNat : Option Nat → String
  | Option.none => "None"
  | some n => toString n

/-- `create_token`: builds a `Token`, commits it (the engine assigns the id),
refreshes, logs, and returns the stored row. -/
def create_token (access_token refresh_token : String) (expires_at : Int)
    (s : Store) : DbResult Token :=
  let token : Token := { id := some s.next_id, access_token := access_token,
                         refresh_token := refresh_token, expires_at := expires_at }
  { store := { rows := s.rows ++ [token], next_id := s.next_id + 1 },
    value := token,
    logs := [(LogLevel.info, "Created token " ++ pyShowOptNat token.id)] }

/-- `delete_all_tokens`: selects every row, deletes each (logging per row),
commits, logs the count, and returns `None` (the function's annotated and
actual return value). -/
def delete_all_tokens (s : Store) : DbResult PyValue :=
  { store := { rows := [], next_id := s.next_id },
    value := PyValue.none,
    logs := (s.rows.map (fun t => (LogLevel.info, "Deleting token " ++ pyShowOptNat t.id)))
      ++ [(LogLevel.info, "Deleted " ++ toString s.rows.length ++ " tokens")] }

/-!  Concrete fixtures used by witnesses and counterexamples. -/

/-- An environment with no variables set. -/
def envNone : Env := fun _ => Option.none

/-- An environment carrying both OAuth2 client credentials. -/
def envCreds : Env := fun name =>
  if name = "WM_CLIENT_ID" then some "client-id"
  else if name = "WM_CLIENT_SECRET" then some "client-secret"
  else Option.none

/-- A plain 200 response with no redirect location. -/
def resp200 : HttpResponse :=
  { status_code := 200, reason_phrase := "OK", body := "<html></html>" }

/-- A 302 redirect response pointing at an article URL. -/
def resp302 : HttpResponse :=
  { status_code := 302, reason_phrase := "Found",
    headers := [("location", "https://en.wikipedia.org/wiki/Example")] }

/-- A 404 error response. -/
def resp404 : HttpResponse :=
  { status_code := 404, reason_phrase := "Not Found" }

/-- A 503 error response. -/
def resp503 : HttpResponse :=
  { status_code := 503, reason_phrase := "Service Unavailable" }

/-- A 200 response whose body is an OAuth2 token JSON document. -/
def tokenResp200 : HttpResponse :=
  { status_code := 200, reason_phrase := "OK",
    body := "\x7b\"access_token\": \"abc\", \"token_type\": \"Bearer\", \"expires_in\": 3600\x7d" }

/-- The empty credential store. -/
def store0 : Store := {}

/-- The store after one `create_token` call on the empty store. -/
def storeWithOne : Store := (create_token "atok" "rtok" 1700000000 store0).store

/-!  Spec-side description of the query-string join, for claim C5: the terms
in input order, separated by a literal `+`. -/

/-- Terms joined with `+` in input order, written as the spec describes it. -/
def joinedWithPlus : List String → String
  | [] => ""
  | [t] => t
  | t :: r :: rest => t ++ "+" ++ joinedWithPlus (r :: rest)

/-- The tail of a `+`-join: every remaining term preceded by a `+`. -/
def plusTail : List String → String
  | [] => ""
  | a :: as => "+" ++ a ++ plusTail as

theorem intercalate_go_eq (as : List String) :
    ∀ acc : String, String.intercalate.go acc "+" as = acc ++ plusTail as := by
  induction as with
  | nil => intro acc; simp [String.intercalate.go, plusTail]
  | cons a as ih =>
      intro acc
      simp [String.intercalate.go, plusTail, ih, String.append_assoc]

theorem joinedWithPlus_cons (a : String) (as : List String) :
    joinedWithPlus (a :: as) = a ++ plusTail as := by
  induction as generalizing a with
  | nil => simp [joinedWithPlus, plusTail]
  | cons b bs ih =>
      simp [joinedWithPlus, plusTail, ih b, String.append_assoc]

theorem intercalate_plus_eq_joinedWithPlus (ts : List String) :
    String.intercalate "+" ts = joinedWithPlus ts := by
  cases ts with
  | nil => rfl
  | cons a as =>
      simp [String.intercalate, intercalate_go_eq, joinedWithPlus_cons]

/-- Claim C5: for every non-empty terms list and every limit, the serialized
search parameters map "q" to the terms joined with "+" in input order and
"limit" to the given limit. -/
theorem c5_search_params_as_dict (terms : List String) (limit : Int)
    (_h : terms ≠ []) :
    (WikipediaSearchParams.as_dict { search_terms := terms, limit := limit }).lookup "q"
      = some (PyValue.str (joinedWithPlus terms))
    ∧ (WikipediaSearchParams.as_dict { search_terms := terms, limit := limit }).lookup "limit"
      = some (PyValue.int limit) := by
  refine ⟨?_, rfl⟩
  simp [WikipediaSearchParams.as_dict, List.lookup, intercalate_plus_eq_joinedWithPlus]

/-- Witness for C5 at the spec's own example `["solar", "system"]`. -/
theorem c5_search_params_as_dict_witness :
    (["solar", "system"] ≠ ([] : List String))
    ∧ (WikipediaSearchParams.as_dict
        { search_terms := ["solar", "system"], limit := 5 }).lookup "q"
      = some (PyValue.str "solar+system") := by
  refine ⟨by decide, ?_⟩
  have h := (c5_search_params_as_dict ["solar", "system"] 5 (by decide)).1
  rw [h]; rfl

/-- Claim C10: for the empty terms list and every limit, serialization is
total and yields exactly `{"q": "", "limit": limit}`. -/
theorem c10_empty_terms_as_dict (limit : Int) :
    WikipediaSearchParams.as_dict { search_terms := [], limit := limit }
      = [("q", PyValue.str ""), ("limit", PyValue.int limit)]
    ∧ (WikipediaSearchParams.as_dict { search_terms := [], limit := limit }).map Prod.fst
      = ["q", "limit"] :=
  ⟨rfl, rfl⟩

/-- Claim C4: when `WM_CLIENT_ID` or `WM_CLIENT_SECRET` is absent or empty,
`get_access_token` fails with the configuration error (the
`ValueError "Client credentials not found"` raised by `get_credentials`)
and issues no HTTP request. -/
theorem c4_missing_credentials (w : Wikipedia) (env : Env) (upstream : HttpResponse)
    (h : truthy (env "WM_CLIENT_ID") = false ∨ truthy (env "WM_CLIENT_SECRET") = false) :
    (w.get_access_token env upstream).result
      = Except.error (PyError.valueError "Client credentials not found")
    ∧ (w.get_access_token env upstream).requests = [] := by
  have hc : Wikipedia.get_credentials env
      = Except.error (PyError.valueError "Client credentials not found") := by
    unfold Wikipedia.get_credentials
    rcases h with h | h <;> simp [h]
  constructor <;> simp [Wikipedia.get_access_token, hc]

/-- Witness for C4: with an empty environment the operation raises the
configuration error and attempts no request. -/
theorem c4_missing_credentials_witness :
    (truthy (envNone "WM_CLIENT_ID") = false ∨ truthy (envNone "WM_CLIENT_SECRET") = false)
    ∧ (Wikipedia.init.get_access_token envNone resp200).result
        = Except.error (PyError.valueError "Client credentials not found")
    ∧ (Wikipedia.init.get_access_token envNone resp200).requests = [] :=
  ⟨Or.inl rfl,
   (c4_missing_credentials Wikipedia.init envNone resp200 (Or.inl rfl)).1,
   (c4_missing_credentials Wikipedia.init envNone resp200 (Or.inl rfl)).2⟩

/-- Claim C1 counterexample: a 200 response is not a redirect, yet
`get_random_article` returns it as a success instead of failing with an
upstream HTTP error, refuting "if the upstream does not redirect, the
operation fails with an UpstreamHTTPError". -/
theorem c1_random_article_counterexample :
    (Wikipedia.init.get_random_article resp200).result
      = Except.ok (PyValue.response resp200)
    ∧ resp200.status_code = 200 :=
  ⟨rfl, rfl⟩

/-- Claim C1 (amended): on a 4xx/5xx upstream status `get_random_article`
fails with an `HTTPStatusError` carrying that status and reason; on any
other status it returns the upstream response as success, and the value of
its `location` header (the redirect target when the upstream redirected) is
what the operation reports. -/
theorem c1_random_article (w : Wikipedia) (upstream : HttpResponse) :
    (upstream.is_error = true →
      (w.get_random_article upstream).result
        = Except.error (PyError.httpStatusError
            ⟨upstream.status_code, upstream.reason_phrase⟩))
    ∧ (upstream.is_error = false →
      (w.get_random_article upstream).result = Except.ok (PyValue.response upstream)
      ∧ (LogLevel.debug, "Random page: " ++ pyShowOptStr (upstream.header "location"))
          ∈ (w.get_random_article upstream).logs) := by
  constructor
  · intro h; simp [Wikipedia.get_random_article, h]
  · intro h; simp [Wikipedia.get_random_article, h]

/-- Witness for C1 at a 404 error and a 302 redirect. -/
theorem c1_random_article_witness :
    resp404.is_error = true
    ∧ (Wikipedia.init.get_random_article resp404).result
        = Except.error (PyError.httpStatusError ⟨404, "Not Found"⟩)
    ∧ resp302.is_error = false
    ∧ (Wikipedia.init.get_random_article resp302).result
        = Except.ok (PyValue.response resp302) := by
  refine ⟨rfl, ?_, rfl, ?_⟩
  · exact (c1_random_article Wikipedia.init resp404).1 rfl
  · exact ((c1_random_article Wikipedia.init resp302).2 rfl).1

/-- Claim C2 counterexample: on a store holding one row, `delete_all_tokens`
returns `None`, not the removed-row count `1`, refuting "returns the count
removed". -/
theorem c2_delete_all_counterexample :
    storeWithOne.rows.length = 1
    ∧ (delete_all_tokens storeWithOne).value = PyValue.none
    ∧ PyValue.none ≠ PyValue.int 1 :=
  ⟨rfl, rfl, by decide⟩

/-- Claim C2 (amended): `delete_all_tokens` removes every stored row, logs
the removed count (equal to the rows present immediately beforehand) and
returns `None`; `create_token` followed by `delete_all_tokens` leaves the
store with zero rows. -/
theorem c2_delete_all (s : Store) (a r : String) (e : Int) :
    (delete_all_tokens s).store.rows = []
    ∧ (delete_all_tokens s).value = PyValue.none
    ∧ (LogLevel.info, "Deleted " ++ toString s.rows.length ++ " tokens")
        ∈ (delete_all_tokens s).logs
    ∧ (delete_all_tokens (create_token a r e s).store).store.rows = [] := by
  refine ⟨rfl, rfl, ?_, rfl⟩
  simp [delete_all_tokens]

/-- Claim C3 counterexample: on a 2xx response carrying a token JSON body,
`get_access_token` returns the raw response object, not a value decoded into
an `AccessTokenResponse`, refuting "returns the JSON body decoded into an
AccessTokenResponse". -/
theorem c3_access_token_counterexample :
    (Wikipedia.init.get_access_token envCreds tokenResp200).result
      = Except.ok (PyValue.response tokenResp200)
    ∧ PyValue.isAccessTokenResponse (PyValue.response tokenResp200) = false
    ∧ tokenResp200.status_code = 200 :=
  ⟨rfl, rfl, rfl⟩

/-- Claim C3 (amended): with credentials present, on a 2xx response
`get_access_token` returns the raw response (decoding is left to the
caller); whenever the body is decoded into an `AccessTokenResponse`, its
`expires_at` equals `now + expires_in` computed from the local clock at
decode time, hence `expires_at ≥ now + expires_in`. -/
theorem c3_access_token (w : Wikipedia) (env : Env) (upstream : HttpResponse)
    (c : ClientCredentials) (a : AccessTokenResponse) (now : Int)
    (hc : Wikipedia.get_credentials env = Except.ok c)
    (h2xx : upstream.is_error = false) :
    (w.get_access_token env upstream).result = Except.ok (PyValue.response upstream)
    ∧ a.expires_at now = now + a.expires_in
    ∧ now + a.expires_in ≤ a.expires_at now := by
  refine ⟨?_, rfl, le_refl _⟩
  simp [Wikipedia.get_access_token, hc, h2xx]

/-- Witness for C3 at the concrete token response and a concrete decode. -/
theorem c3_access_token_witness :
    Wikipedia.get_credentials envCreds = Except.ok ⟨"client-id", "client-secret"⟩
    ∧ tokenResp200.is_error = false
    ∧ (Wikipedia.init.get_access_token envCreds tokenResp200).result
        = Except.ok (PyValue.response tokenResp200)
    ∧ AccessTokenResponse.expires_at ⟨"abc", "Bearer", 3600, ""⟩ 1700000000
        = 1700000000 + 3600 := by
  refine ⟨rfl, rfl, ?_, ?_⟩
  · exact (c3_access_token Wikipedia.init envCreds tokenResp200
      ⟨"client-id", "client-secret"⟩ ⟨"abc", "Bearer", 3600, ""⟩ 0 rfl rfl).1
  · exact (c3_access_token Wikipedia.init envCreds tokenResp200
      ⟨"client-id", "client-secret"⟩ ⟨"abc", "Bearer", 3600, ""⟩ 1700000000 rfl rfl).2.1

/-- Claim C6: on any upstream 4xx/5xx response (with credentials present for
the token operation), each of the four provider operations logs the error
line carrying the status code and reason phrase and fails with an
`HTTPStatusError` carrying that status code and reason phrase; none returns
such a response as success. -/
theorem c6_upstream_error (w : Wikipedia) (env : Env) (terms : List String)
    (limit : Int) (resp : HttpResponse) (c : ClientCredentials)
    (hc : Wikipedia.get_credentials env = Except.ok c)
    (h4 : 400 ≤ resp.status_code) (h6 : resp.status_code < 600) :
    ((w.get_access_token env resp).result
        = Except.error (PyError.httpStatusError ⟨resp.status_code, resp.reason_phrase⟩)
      ∧ errorLogLine resp ∈ (w.get_access_token env resp).logs)
    ∧ ((w.search_titles env terms limit resp).result
        = Except.error (PyError.httpStatusError ⟨resp.status_code, resp.reason_phrase⟩)
      ∧ errorLogLine resp ∈ (w.search_titles env terms limit resp).logs)
    ∧ ((w.search_articles env terms limit resp).result
        = Except.error (PyError.httpStatusError ⟨resp.status_code, resp.reason_phrase⟩)
      ∧ errorLogLine resp ∈ (w.search_articles env terms limit resp).logs)
    ∧ ((w.get_random_article resp).result
        = Except.error (PyError.httpStatusError ⟨resp.status_code, resp.reason_phrase⟩)
      ∧ errorLogLine resp ∈ (w.get_random_article resp).logs) := by
  have he : resp.is_error = true := by
    simp only [HttpResponse.is_error, Bool.and_eq_true, decide_eq_true_eq]
    exact ⟨h4, h6⟩
  refine ⟨⟨?_, ?_⟩, ⟨?_, ?_⟩, ⟨?_, ?_⟩, ⟨?_, ?_⟩⟩ <;>
    simp [Wikipedia.get_access_token, Wikipedia.search_titles,
      Wikipedia.search_articles, Wikipedia.get_random_article, hc, he]

/-- Witness for C6 at a concrete 503 response. -/
theorem c6_upstream_error_witness :
    Wikipedia.get_credentials envCreds = Except.ok ⟨"client-id", "client-secret"⟩
    ∧ (400 ≤ resp503.status_code ∧ resp503.status_code < 600)
    ∧ (Wikipedia.init.get_access_token envCreds resp503).result
        = Except.error (PyError.httpStatusError ⟨503, "Service Unavailable"⟩)
    ∧ errorLogLine resp503
        ∈ (Wikipedia.init.search_articles envCreds ["Python"] 5 resp503).logs := by
  refine ⟨rfl, by decide, ?_, ?_⟩
  · exact (c6_upstream_error Wikipedia.init envCreds ["Python"] 5 resp503
      ⟨"client-id", "client-secret"⟩ rfl (by decide) (by decide)).1.1
  · exact (c6_upstream_error Wikipedia.init envCreds ["Python"] 5 resp503
      ⟨"client-id", "client-secret"⟩ rfl (by decide) (by decide)).2.2.1.2

/-- Claim C7: with terms and limit supplied explicitly, `search_articles`
and `search_titles` issue requests with the same method, base URL, query
parameters and headers, handle the upstream response identically (equal
results, equal console output), and differ only in the endpoint path:
`search/page` versus `search/title`. -/
theorem c7_search_ops_equivalent (w : Wikipedia) (env : Env) (terms : List String)
    (limit : Int) (resp : HttpResponse) :
    (w.search_articles env terms limit resp).result
      = (w.search_titles env terms limit resp).result
    ∧ (w.search_articles env terms limit resp).requests.map HttpRequest.params
      = (w.search_titles env terms limit resp).requests.map HttpRequest.params
    ∧ (w.search_articles env terms limit resp).requests.map HttpRequest.headers
      = (w.search_titles env terms limit resp).requests.map HttpRequest.headers
    ∧ (w.search_articles env terms limit resp).requests.map HttpRequest.method
      = (w.search_titles env terms limit resp).requests.map HttpRequest.method
    ∧ (w.search_articles env terms limit resp).requests.map HttpRequest.base_url
      = (w.search_titles env terms limit resp).requests.map HttpRequest.base_url
    ∧ (w.search_articles env terms limit resp).console
      = (w.search_titles env terms limit resp).console
    ∧ (w.search_articles env terms limit resp).requests.map HttpRequest.url
      = [WikipediaEndpoints.SEARCH_PAGES]
    ∧ (w.search_titles env terms limit resp).requests.map HttpRequest.url
      = [WikipediaEndpoints.SEARCH_TITLES] := by
  by_cases h : resp.is_error <;>
    simp [Wikipedia.search_articles, Wikipedia.search_titles, h]

/-- A provider whose token field holds the empty string. -/
def wEmptyToken : Wikipedia := { token := some "" }

/-- A provider holding a non-empty bearer token. -/
def wWithToken : Wikipedia := { token := some "tok123" }

/-- Claim C8 counterexample: a provider whose token field holds `""` holds a
token `t`, yet its search request carries no Authorization header (the code
tests Python truthiness, so the empty token is treated as absent), refuting
"if the provider holds a token t, the request carries Authorization:
Bearer t". -/
theorem c8_auth_header_counterexample :
    wEmptyToken.token = some ""
    ∧ (wEmptyToken.search_articles envNone ["a"] 5 resp200).requests.map HttpRequest.headers
      = [[]]
    ∧ (wEmptyToken.search_articles envNone ["a"] 5 resp200).logs
      = [(LogLevel.warning, "No access token found."),
         (LogLevel.debug, "Searching Wikipedia for: a")] :=
  ⟨rfl, rfl, rfl⟩

/-- Claim C8 (amended): when the token field is `None` or the empty string,
both search operations send no Authorization header and log a warning; when
it holds a non-empty token `t`, both send exactly `Authorization: Bearer t`. -/
theorem c8_auth_header (w : Wikipedia) (env : Env) (terms : List String)
    (limit : Int) (resp : HttpResponse) (t : String) :
    (truthy w.token = false →
      (w.search_articles env terms limit resp).requests.map HttpRequest.headers = [[]]
      ∧ (LogLevel.warning, "No access token found.")
          ∈ (w.search_articles env terms limit resp).logs
      ∧ (w.search_titles env terms limit resp).requests.map HttpRequest.headers = [[]]
      ∧ (LogLevel.warning, "No access token found.")
          ∈ (w.search_titles env terms limit resp).logs)
    ∧ (w.token = some t → t ≠ "" →
      (w.search_articles env terms limit resp).requests.map HttpRequest.headers
        = [[("Authorization", "Bearer " ++ t)]]
      ∧ (w.search_titles env terms limit resp).requests.map HttpRequest.headers
        = [[("Authorization", "Bearer " ++ t)]]) := by
  constructor
  · intro h
    refine ⟨?_, ?_, ?_, ?_⟩ <;>
      by_cases he : resp.is_error <;>
        simp [Wikipedia.search_articles, Wikipedia.search_titles,
          Wikipedia.searchHeaders, Wikipedia.searchWarnLogs, h, he]
  · intro ht htne
    have hts : truthy (some t) = true := by simp [truthy, htne]
    refine ⟨?_, ?_⟩ <;>
      by_cases he : resp.is_error <;>
        simp [Wikipedia.search_articles, Wikipedia.search_titles,
          Wikipedia.searchHeaders, Wikipedia.searchWarnLogs, ht, hts, he]

/-- Witness for C8 with no token held and with the token `"tok123"`. -/
theorem c8_auth_header_witness :
    truthy Wikipedia.init.token = false
    ∧ (Wikipedia.init.search_articles envNone ["a"] 5 resp200).requests.map HttpRequest.headers
      = [[]]
    ∧ (wWithToken.token = some "tok123" ∧ "tok123" ≠ "")
    ∧ (wWithToken.search_titles envNone ["a"] 5 resp200).requests.map HttpRequest.headers
      = [[("Authorization", "Bearer tok123")]] := by
  refine ⟨rfl, ?_, ⟨rfl, by decide⟩, ?_⟩
  · exact ((c8_auth_header Wikipedia.init envNone ["a"] 5 resp200 "").1 rfl).1
  · exact ((c8_auth_header wWithToken envNone ["a"] 5 resp200 "tok123").2 rfl
      (by decide)).2

/-- Claim C9: none of the four provider operations changes the provider's
state; in particular the token field after any operation equals the token
field before it. -/
theorem c9_provider_state_unchanged (w : Wikipedia) (env : Env)
    (terms : List String) (limit : Int) (resp : HttpResponse) :
    (w.get_access_token env resp).final = w
    ∧ (w.search_titles env terms limit resp).final = w
    ∧ (w.search_articles env terms limit resp).final = w
    ∧ (w.get_random_article resp).final = w := by
  refine ⟨?_, ?_, ?_, ?_⟩
  · unfold Wikipedia.get_access_token
    cases Wikipedia.get_credentials env with
    | error e => rfl
    | ok c => by_cases h : resp.is_error <;> simp [h]
  · unfold Wikipedia.search_titles
    by_cases h : resp.is_error <;> simp [h]
  · unfold Wikipedia.search_articles
    by_cases h : resp.is_error <;> simp [h]
  · unfold Wikipedia.get_random_article
    by_cases h : resp.is_error <;> simp [h]
